import Mathlib

/-!
Verification of the Auto-Save Form exercise solution (`AutoSaveForm`): the
debounced persistence controller that keeps a two-field form synchronized to
`localStorage` under the key `"autoSaveFormData"`, with a 2000 ms debounce
timer (`saveTimerRef`) and a 500 ms visual-feedback timer (`statusTimerRef`).

The component is embedded shallowly as explicit state passing over a `Ctrl`
record that holds the React state (`form`, `status`, `lastSaved`), the two
timer refs, the store entry at the storage key, and a log of completed store
writes.  React effect semantics are folded into the operations: a `setForm`
call re-runs the auto-save `useEffect`, so its cleanup (clearing the debounce
timer) and its body execute as part of `edit` and of `handleClear`; unmount
(`teardown`) runs the effect cleanup.  JSON serialization is modelled
structurally: a stored value is either a well-formed record, a string that
parses but lacks the expected shape, or a string `JSON.parse` rejects.
-/

namespace AutoSave

/-- The editable payload: `useState({ title: "", content: "" })` (line 12). -/
structure Document where
  title : String
  content : String
deriving DecidableEq, Repr

/-- The emptiness guard `!form.title && !form.content` (line 41): a JS string
is falsy exactly when it is the empty string. -/
def Document.isEmpty (d : Document) : Bool :=
  d.title == "" && d.content == ""

/-- The initial form value `{ title: "", content: "" }`. -/
def emptyDoc : Document := ⟨"", ""⟩

/-- The `status` state values: `"idle" | "unsaved" | "saving" | "saved" |
"error"` (lines 13, 46, 65, 78, 82, 97). -/
inductive SaveStatus
  | idle | unsaved | saving | saved | error
deriving DecidableEq, Repr

/-- A value present in the store at the storage key, classified by how
`JSON.parse` treats it.  `record f t` is a string parsing to an object with a
`form` field holding a valid document and a string `timestamp` field — what
`JSON.stringify({ form, timestamp })` (lines 67–70, 72) produces.
`wrongShape` is a string that parses but whose result has neither field (for
example the stored text `"5"`): member access on it yields JS `undefined`.
`unparsable` is a string `JSON.parse` throws on. -/
inductive StoredValue
  | record (form : Document) (timestamp : String)
  | wrongShape
  | unparsable
deriving DecidableEq, Repr

/-- What `data.form` can be after a successful `JSON.parse` of the stored
string: a well-formed document object, or JS `undefined` when the parsed
value has no such field. -/
inductive JsForm
  | doc (d : Document)
  | undef
deriving DecidableEq, Repr

/-- Outcome of the load-on-mount effect (lines 21–36) on a fresh instance:
the resulting `form`, `lastSaved` and `status` state, and whether an error
escaped the effect. -/
structure LoadResult where
  form : JsForm
  lastSaved : Option String
  status : SaveStatus
  threw : Bool
deriving DecidableEq, Repr

/-- The load-on-mount effect (lines 21–36), from the initial state (empty
form, `"idle"`, no timestamp).  An absent entry leaves the state untouched
(line 24's guard); a well-formed record installs its document and timestamp
and sets `"saved"` (lines 26–28); a parseable value of the wrong shape is
installed as-is — `data.form` and `data.timestamp` are `undefined` — and the
status still becomes `"saved"`; a `JSON.parse` failure is caught and logged
(lines 33–35), leaving the initial state.  No branch throws to the caller. -/
def loadEffect : Option StoredValue → LoadResult
  | none => ⟨JsForm.doc emptyDoc, none, SaveStatus.idle, false⟩
  | some (StoredValue.record f t) => ⟨JsForm.doc f, some t, SaveStatus.saved, false⟩
  | some StoredValue.wrongShape => ⟨JsForm.undef, none, SaveStatus.saved, false⟩
  | some StoredValue.unparsable => ⟨JsForm.doc emptyDoc, none, SaveStatus.idle, false⟩

/-- Mutable state of one `AutoSaveForm` instance together with its store
entry.  `saveTimer` is the pending debounce timeout, carrying the `form`
captured by the closure of the render that armed it (lines 52–54);
`statusTimer` says whether the 500 ms feedback timeout is pending (lines
76–79); `store` is the `localStorage` entry at the storage key; `writes`
logs every completed `localStorage.setItem` call; `mounted` is false after
unmount. -/
structure Ctrl where
  form : Document
  status : SaveStatus
  lastSaved : Option String
  saveTimer : Option Document
  statusTimer : Bool
  store : Option StoredValue
  writes : List (Document × String)
  mounted : Bool
deriving DecidableEq, Repr

/-- A fresh mount (lines 12–18): empty form, `"idle"`, no timestamp, no
pending timers, no writes yet, over an arbitrary pre-existing store entry. -/
def initCtrl (store : Option StoredValue) : Ctrl :=
  ⟨emptyDoc, SaveStatus.idle, none, none, false, store, [], true⟩

/-- The body of `saveToLocalStorage` (lines 63–84) as created by the render
whose form was `captured` (the function closes over `form`).  `now` is
`new Date().toISOString()`; `setOk` is whether `localStorage.setItem`
succeeds (it throws on quota).  `setStatus("saving")` runs first (line 65).
On success the entry is overwritten, the write is logged, `lastSaved` is set,
and the feedback timer is (re)armed (lines 72–79).  On failure the thrown
error is caught and logged and the status becomes `"error"` (lines 80–83);
the `clearTimeout`/`setTimeout` on lines 76–79 are not reached, so neither
`lastSaved` nor the feedback timer changes. -/
def saveToLocalStorage (captured : Document) (s : Ctrl) (now : String) (setOk : Bool) : Ctrl :=
  let s1 := { s with status := SaveStatus.saving }
  if setOk then
    { s1 with store := some (StoredValue.record captured now),
              writes := s1.writes ++ [(captured, now)],
              lastSaved := some now,
              statusTimer := true }
  else
    { s1 with status := SaveStatus.error }

/-- One edit: `handleChange` replaces `form` (lines 87–90); the resulting
re-render first runs the auto-save effect's cleanup (lines 57–59), which
clears the pending debounce timer, then the effect body (lines 39–55): when
the new form is empty it returns at the guard (lines 41–43), otherwise it
sets `"unsaved"` and arms a fresh debounce timer whose callback captures this
render's form. -/
def edit (s : Ctrl) (d : Document) : Ctrl :=
  let s1 := { s with form := d, saveTimer := none }
  if d.isEmpty then s1
  else { s1 with status := SaveStatus.unsaved, saveTimer := some d }

/-- The armed debounce timeout elapses (lines 52–54): the callback runs the
`saveToLocalStorage` closure of the render that armed it, and the timeout is
no longer pending.  A no-op when no debounce timer is armed. -/
def fireSaveTimer (s : Ctrl) (now : String) (setOk : Bool) : Ctrl :=
  match s.saveTimer with
  | none => s
  | some d => saveToLocalStorage d { s with saveTimer := none } now setOk

/-- The pending 500 ms feedback timeout elapses: `setStatus("saved")`
(lines 77–79).  A no-op when it is not pending. -/
def fireStatusTimer (s : Ctrl) : Ctrl :=
  if s.statusTimer then { s with status := SaveStatus.saved, statusTimer := false }
  else s

/-- `handleManualSave` (lines 107–111): clears the pending debounce timer,
then runs `saveToLocalStorage` with the current render's form.  There is no
emptiness guard on this path. -/
def handleManualSave (s : Ctrl) (now : String) (setOk : Bool) : Ctrl :=
  saveToLocalStorage s.form { s with saveTimer := none } now setOk

/-- `handleClear` (lines 93–105).  `confirmed` is `window.confirm`'s answer
(line 94); when declined nothing runs.  When confirmed: the form resets to
empty, `lastSaved` to null, `status` to `"idle"` (lines 95–97), and
`localStorage.removeItem` runs in a try/catch (`removeOk` is its success; a
failure is caught and only logged, lines 99–103).  `setForm(empty)` re-runs
the auto-save effect, whose cleanup clears the debounce timer and whose body
returns at the emptiness guard.  Nothing touches `statusTimerRef`. -/
def handleClear (s : Ctrl) (confirmed : Bool) (removeOk : Bool) : Ctrl :=
  if confirmed then
    { s with form := emptyDoc, lastSaved := none, status := SaveStatus.idle,
             saveTimer := none,
             store := if removeOk then none else s.store }
  else s

/-- Unmount (teardown): React runs each effect's cleanup.  The auto-save
effect's cleanup (lines 57–59) clears `saveTimerRef`; no effect has a cleanup
for `statusTimerRef`, so a pending feedback timeout stays pending. -/
def teardown (s : Ctrl) : Ctrl :=
  { s with saveTimer := none, mounted := false }

/-- A burst of edits applied in sequence, each before the previous debounce
timeout could fire. -/
def applyEdits (s : Ctrl) (ds : List Document) : Ctrl :=
  ds.foldl edit s

/-- A timer event the environment can deliver after user interaction ends:
the debounce timeout elapsing or the feedback timeout elapsing. -/
inductive TimerEvent
  | save (now : String) (setOk : Bool)
  | status
deriving DecidableEq, Repr

/-- Deliver one timer event. -/
def fireTimer (s : Ctrl) : TimerEvent → Ctrl
  | TimerEvent.save now setOk => fireSaveTimer s now setOk
  | TimerEvent.status => fireStatusTimer s

/-- Deliver a sequence of timer events. -/
def fireTimers (s : Ctrl) (es : List TimerEvent) : Ctrl :=
  es.foldl fireTimer s

end AutoSave

namespace AutoSave

/-- Closed form of a burst of edits ending in `L`, all documents non-empty:
the resulting state carries the last document, status `"unsaved"`, and a
single armed debounce timer capturing that document; every earlier edit's
timer was cancelled by its successor and nothing else changed. -/
theorem applyEdits_burst (ds : List Document) :
    ∀ (s : Ctrl) (L : Document), (∀ d ∈ ds ++ [L], d.isEmpty = false) →
      applyEdits s (ds ++ [L]) =
        { s with form := L, status := SaveStatus.unsaved, saveTimer := some L } := by
  induction ds with
  | nil =>
      intro s L h
      have hL : L.isEmpty = false := h L (by simp)
      simp [applyEdits, edit, hL]
  | cons d t ih =>
      intro s L h
      have hd : d.isEmpty = false := h d (by simp)
      have h' : ∀ x ∈ t ++ [L], x.isEmpty = false := by
        intro x hx
        exact h x (List.mem_cons_of_mem d hx)
      have e1 : applyEdits s ((d :: t) ++ [L]) = applyEdits (edit s d) (t ++ [L]) := rfl
      rw [e1, ih (edit s d) L h']
      simp [edit, hd]

/-- The feedback timeout elapsing only updates the status flags: write log,
store entry and debounce timer are untouched. -/
theorem fireStatusTimer_frame (s : Ctrl) :
    (fireStatusTimer s).writes = s.writes ∧ (fireStatusTimer s).store = s.store
    ∧ (fireStatusTimer s).saveTimer = s.saveTimer := by
  unfold fireStatusTimer
  split <;> exact ⟨rfl, rfl, rfl⟩

/-- With no debounce timer armed, any sequence of timer events neither writes
nor touches the store, and never re-arms the debounce timer. -/
theorem fireTimers_inert (es : List TimerEvent) :
    ∀ s : Ctrl, s.saveTimer = none →
      (fireTimers s es).writes = s.writes
      ∧ (fireTimers s es).store = s.store
      ∧ (fireTimers s es).saveTimer = none := by
  induction es with
  | nil => intro s h; exact ⟨rfl, rfl, h⟩
  | cons e t ih =>
      intro s h
      cases e with
      | save now ok =>
          have e1 : fireTimers s (TimerEvent.save now ok :: t)
              = fireTimers (fireSaveTimer s now ok) t := rfl
          have e2 : fireSaveTimer s now ok = s := by
            unfold fireSaveTimer
            rw [h]
          rw [e1, e2]
          exact ih s h
      | status =>
          have e1 : fireTimers s (TimerEvent.status :: t)
              = fireTimers (fireStatusTimer s) t := rfl
          obtain ⟨a, b, c⟩ := fireStatusTimer_frame s
          obtain ⟨a', b', c'⟩ := ih (fireStatusTimer s) (c.trans h)
          rw [e1]
          exact ⟨a'.trans a, b'.trans b, c'⟩

end AutoSave

namespace AutoSave

/-- Claim C1, evaluated at the failing input: from the freshly mounted state,
whose document is empty, `handleManualSave` writes the empty document to the
store and drives the status to `"saving"` — and, once the feedback timeout
fires, to `"saved"` — contradicting the invariant that an empty document is
never persisted and never reaches `"saving"`/`"saved"`.  Only the auto-save
effect (lines 41–43) carries the emptiness guard; `handleManualSave`
(lines 107–111) calls `saveToLocalStorage` unconditionally. -/
theorem c1_empty_manualSave_writes :
    (initCtrl none).form.isEmpty = true
    ∧ (handleManualSave (initCtrl none) "2024-01-01T00:00:00.000Z" true).status
        = SaveStatus.saving
    ∧ (handleManualSave (initCtrl none) "2024-01-01T00:00:00.000Z" true).writes
        = [(emptyDoc, "2024-01-01T00:00:00.000Z")]
    ∧ (fireStatusTimer (handleManualSave (initCtrl none) "2024-01-01T00:00:00.000Z" true)).status
        = SaveStatus.saved := by
  refine ⟨by decide, rfl, rfl, rfl⟩

/-- Claim C2: a burst of edits of non-empty documents, each issued before the
pending debounce timeout could fire, performs no write and leaves exactly one
armed debounce timer, capturing the last document of the burst — each edit
cancelled its predecessor's timer before arming its own.  If that timer then
fires with a successful write, exactly one write is appended, its content is
the last document, and no debounce timer remains armed (so no further write
is pending); if `teardown` or a confirmed `clear` intervenes first, the timer
is cancelled and a later elapse of the quantum writes nothing. -/
theorem c2_debounce_burst (s : Ctrl) (ds : List Document) (L : Document)
    (hne : ∀ d ∈ ds ++ [L], d.isEmpty = false) (now : String) :
    ((applyEdits s (ds ++ [L])).writes = s.writes
      ∧ (applyEdits s (ds ++ [L])).saveTimer = some L)
    ∧ ((fireSaveTimer (applyEdits s (ds ++ [L])) now true).writes = s.writes ++ [(L, now)]
      ∧ (fireSaveTimer (applyEdits s (ds ++ [L])) now true).saveTimer = none)
    ∧ ((teardown (applyEdits s (ds ++ [L]))).saveTimer = none
      ∧ (∀ ok, (fireSaveTimer (teardown (applyEdits s (ds ++ [L]))) now ok).writes = s.writes))
    ∧ (∀ removeOk ok,
        (fireSaveTimer (handleClear (applyEdits s (ds ++ [L])) true removeOk) now ok).writes
          = s.writes) := by
  rw [applyEdits_burst ds s L hne]
  exact ⟨⟨rfl, rfl⟩, ⟨rfl, rfl⟩, ⟨rfl, fun ok => rfl⟩, fun removeOk ok => rfl⟩

/-- Witness for C2 at a concrete burst: two rapid edits, then the debounce
timer fires; the single resulting write holds the second document. -/
theorem c2_debounce_burst_witness :
    (fireSaveTimer (applyEdits (initCtrl none) ([⟨"A", ""⟩] ++ [⟨"AB", ""⟩])) "t1" true).writes
      = (initCtrl none).writes ++ [(⟨"AB", ""⟩, "t1")] :=
  (c2_debounce_burst (initCtrl none) [⟨"A", ""⟩] ⟨"AB", ""⟩ (by decide) "t1").2.1.1

/-- Claim C3: teardown clears the debounce timer, so whatever timer events the
environment subsequently delivers — the debounce quantum elapsing included —
no store write occurs for this instance: its write log and its store entry
are unchanged forever after. -/
theorem c3_no_write_after_teardown (s : Ctrl) (es : List TimerEvent) :
    (fireTimers (teardown s) es).writes = s.writes
    ∧ (fireTimers (teardown s) es).store = s.store := by
  obtain ⟨a, b, _⟩ := fireTimers_inert es (teardown s) rfl
  exact ⟨a, b⟩

/-- Counterexample to claim C4: in the reachable state where an edit's
debounce timer fired with a successful write — arming the 500 ms feedback
timeout — `teardown` leaves that timeout pending: the unmount cleanup
(lines 57–59) clears only `saveTimerRef`, and nothing clears
`statusTimerRef`. -/
theorem c4_cex_feedback_timer_survives_teardown :
    (teardown (fireSaveTimer (edit (initCtrl none) ⟨"A", ""⟩) "t0" true)).statusTimer = true := by
  decide

/-- Claim C4 as amended: `teardown` cancels the pending debounce timer, but
does not touch the visual-feedback timer — a pending feedback timeout
survives the unmount unchanged. -/
theorem c4_teardown_cancels_only_debounce (s : Ctrl) :
    (teardown s).saveTimer = none ∧ (teardown s).statusTimer = s.statusTimer :=
  ⟨rfl, rfl⟩

/-- Counterexample to claim C5: clearing right after a successful save (while
the 500 ms feedback timeout is pending) does not cancel that timeout, and its
subsequent firing moves the status from `"idle"` to `"saved"` — so clear
neither cancels every pending timer nor pins the status at `"idle"`. -/
theorem c5_cex_clear_keeps_feedback_timer :
    (handleClear (fireSaveTimer (edit (initCtrl none) ⟨"A", ""⟩) "t0" true) true true).statusTimer
      = true
    ∧ (fireStatusTimer
        (handleClear (fireSaveTimer (edit (initCtrl none) ⟨"A", ""⟩) "t0" true) true true)).status
      = SaveStatus.saved := by
  exact ⟨by decide, by decide⟩

/-- Claim C5 as amended: a confirmed `clear` resets the document to empty,
the status to `"idle"`, the timestamp to none, cancels the pending debounce
timer (via the form-change effect cleanup) and, when `removeItem` succeeds,
removes the store entry (a removal failure is caught and the in-memory reset
stands); the pending visual-feedback timer, however, is left as it was. -/
theorem c5_clear_confirmed (s : Ctrl) (removeOk : Bool) :
    handleClear s true removeOk =
      { s with form := emptyDoc, lastSaved := none, status := SaveStatus.idle,
               saveTimer := none,
               store := if removeOk then none else s.store } :=
  rfl

/-- Claim C6: when `localStorage.setItem` throws (for example quota
exceeded), the save attempt — whether the debounce timer firing or a manual
save — ends with status `"error"`, leaves `lastSaved`, the write log, the
store entry and the feedback timer unchanged, and arms no new timer: the
exception is caught inside `saveToLocalStorage` (the operation is total) and
nothing retries the write. -/
theorem c6_write_failure (s : Ctrl) (d : Document) (now : String)
    (h : s.saveTimer = some d) :
    ((fireSaveTimer s now false).status = SaveStatus.error
      ∧ (fireSaveTimer s now false).lastSaved = s.lastSaved
      ∧ (fireSaveTimer s now false).writes = s.writes
      ∧ (fireSaveTimer s now false).store = s.store
      ∧ (fireSaveTimer s now false).saveTimer = none
      ∧ (fireSaveTimer s now false).statusTimer = s.statusTimer)
    ∧ ((handleManualSave s now false).status = SaveStatus.error
      ∧ (handleManualSave s now false).lastSaved = s.lastSaved
      ∧ (handleManualSave s now false).writes = s.writes
      ∧ (handleManualSave s now false).store = s.store
      ∧ (handleManualSave s now false).saveTimer = none
      ∧ (handleManualSave s now false).statusTimer = s.statusTimer) := by
  have e : fireSaveTimer s now false
      = saveToLocalStorage d { s with saveTimer := none } now false := by
    unfold fireSaveTimer
    rw [h]
  rw [e]
  exact ⟨⟨rfl, rfl, rfl, rfl, rfl, rfl⟩, rfl, rfl, rfl, rfl, rfl, rfl⟩

/-- Witness for C6 at a concrete state: one edit arms the timer; the timer
fires but the store write fails, and the status ends at `"error"`. -/
theorem c6_write_failure_witness :
    (fireSaveTimer (edit (initCtrl none) ⟨"A", ""⟩) "t0" false).status = SaveStatus.error :=
  (c6_write_failure (edit (initCtrl none) ⟨"A", ""⟩) ⟨"A", ""⟩ "t0" (by decide)).1.1

/-- Counterexample to claim C7: a stored value that `JSON.parse` accepts but
that is not a Document-plus-timestamp record (for example the stored text
`"5"`) does not yield the empty-document/`"idle"` outcome: the load effect
installs it as-is, so `form` becomes `undefined` and the status becomes
`"saved"`. -/
theorem c7_cex_wrongShape_load :
    (loadEffect (some StoredValue.wrongShape)).status = SaveStatus.saved
    ∧ (loadEffect (some StoredValue.wrongShape)).form = JsForm.undef :=
  ⟨rfl, rfl⟩

/-- Claim C7 as amended: for every stored value that is absent or that
`JSON.parse` rejects, the load effect yields an empty document, no timestamp,
status `"idle"`, and throws no error (the parse failure is caught and
logged).  Only a value that parses but lacks the record shape escapes this
fallback. -/
theorem c7_load_absent_or_unparsable (v : Option StoredValue)
    (h : v = none ∨ v = some StoredValue.unparsable) :
    loadEffect v = ⟨JsForm.doc emptyDoc, none, SaveStatus.idle, false⟩ := by
  rcases h with h | h <;> rw [h] <;> rfl

/-- Witness for C7 at a concrete input: loading an unparsable stored value
yields the empty document, no timestamp, `"idle"`, and no thrown error. -/
theorem c7_load_absent_or_unparsable_witness :
    loadEffect (some StoredValue.unparsable)
      = ⟨JsForm.doc emptyDoc, none, SaveStatus.idle, false⟩ :=
  c7_load_absent_or_unparsable (some StoredValue.unparsable) (Or.inr rfl)

/-- Claim C8: after a successful save of a non-empty document at timestamp
`now` (the armed debounce timer firing with `setItem` succeeding), the load
effect run against the resulting store reads back exactly that document and
that timestamp, with status `"saved"` and no error: the serialized record
round-trips losslessly. -/
theorem c8_roundtrip (s : Ctrl) (d : Document) (now : String)
    (hne : d.isEmpty = false) (h : s.saveTimer = some d) :
    loadEffect (fireSaveTimer s now true).store
      = ⟨JsForm.doc d, some now, SaveStatus.saved, false⟩ := by
  have hd : d.isEmpty = false := hne
  have e : fireSaveTimer s now true
      = saveToLocalStorage d { s with saveTimer := none } now true := by
    unfold fireSaveTimer
    rw [h]
  rw [e]
  rfl

/-- Witness for C8 at a concrete save: the document written at `"t0"` is read
back with its timestamp and status `"saved"`. -/
theorem c8_roundtrip_witness :
    loadEffect (fireSaveTimer (edit (initCtrl none) ⟨"A", ""⟩) "t0" true).store
      = ⟨JsForm.doc ⟨"A", ""⟩, some "t0", SaveStatus.saved, false⟩ :=
  c8_roundtrip (edit (initCtrl none) ⟨"A", ""⟩) ⟨"A", ""⟩ "t0" (by decide) (by decide)

/-- Claim C9: an edit carrying an empty document returns at the guard
(lines 41–43): the status keeps its current value (in particular `"idle"`
stays `"idle"`), no debounce timer ends up armed, and neither the write log,
the store entry nor the timestamp changes. -/
theorem c9_edit_empty (s : Ctrl) (d : Document) (h : d.isEmpty = true) :
    (edit s d).status = s.status
    ∧ (edit s d).saveTimer = none
    ∧ (edit s d).writes = s.writes
    ∧ (edit s d).store = s.store
    ∧ (edit s d).lastSaved = s.lastSaved
    ∧ (s.status = SaveStatus.idle → (edit s d).status = SaveStatus.idle) := by
  simp [edit, h]

/-- Witness for C9 at a concrete input: editing the fresh state with the
empty document leaves the status where it was. -/
theorem c9_edit_empty_witness :
    (edit (initCtrl none) emptyDoc).status = (initCtrl none).status :=
  (c9_edit_empty (initCtrl none) emptyDoc (by decide)).1

/-- Claim C10: a declined confirmation makes `handleClear` a complete no-op —
the whole state (document, status, timestamp, both timers, store entry and
write log) is returned unchanged, whatever `removeItem` would have done. -/
theorem c10_clear_declined (s : Ctrl) (removeOk : Bool) :
    handleClear s false removeOk = s :=
  rfl

end AutoSave
